import Mathlib

/-!
Verification of the skill-mentor-frontend specification against a shallow
embedding of the repository source.

The embedding covers:
* the shared authentication-token cache (`useSharedAuth` hook),
* the role-gated route guard (`ProtectedRoute`) and related role checks,
* status normalization (`normalizeStatus`, `StatusPill`),
* the class-creation form validation and submission pipeline,
* the mentor-creation per-class request loop,
* the booking status update (`updateBookingStatus`).
-/

namespace SkillMentor

/-! ## Shared token cache (useSharedAuth) -/

/-- JS truthiness test for an optional string value: `null`/`undefined` and
the empty string are falsy (source: `if (!token ...)`). -/
def jsFalsyStr : Option String → Bool
  | none => true
  | some s => s = ""

/-- JS truthiness test for an optional integer: `null`/`undefined` and `0`
are falsy (source: `if (... || !tokenExpiry)`). -/
def jsFalsyInt : Option Int → Bool
  | none => true
  | some n => n = 0

/-- The module-level mutable state of `useSharedAuth`: `sharedToken`,
`tokenExpiry`, plus, for each registered listener, the token value that the
listener currently observes (a listener runs `setToken(sharedToken)` when
notified). -/
structure AuthCacheState where
  sharedToken : Option String
  tokenExpiry : Option Int
  listenerTokens : List (Option String)
  deriving Repr, DecidableEq

/-- `isTokenValid` from the hook: falsy token or falsy expiry is invalid;
otherwise the token is valid when the recorded expiry is strictly beyond
`now + 300` seconds. -/
def isTokenValid (st : AuthCacheState) (token : Option String) (now : Int) : Bool :=
  if jsFalsyStr token || jsFalsyInt st.tokenExpiry then false
  else decide (st.tokenExpiry.getD 0 > now + 300)

/-- Result of one `getToken` call against the identity provider: either the
promise rejects, or it resolves with a possibly-null token whose payload
decode yields `decodedExp` (`none` when the decode step fails). -/
inductive FetchOutcome where
  | throws (msg : String)
  | resolved (token : Option String) (decodedExp : Option Int)
  deriving Repr, DecidableEq

/-- Value produced by `getSharedToken`: the returned token or the thrown
error message. -/
inductive TokenResult where
  | ok (token : String)
  | err (msg : String)
  deriving Repr, DecidableEq

/-- Full observable effect of one `getSharedToken` call: its result, the
cache state afterwards, and how many identity-provider fetches it issued. -/
structure GetTokenResult where
  result : TokenResult
  state : AuthCacheState
  fetchCount : Nat
  deriving Repr, DecidableEq

/-- `getSharedToken` from the hook. If a truthy token is cached and
`isTokenValid` holds, the cached token is returned with no fetch. Otherwise
one `getToken` call is made: a rejection is rethrown, a falsy token raises
"Authentication token not available", and otherwise the new token is cached
(its decoded expiry replaces `tokenExpiry` only when the decode succeeds),
all listeners are notified, and the new token is returned. On every failure
path the cache state is untouched. -/
def getSharedToken (st : AuthCacheState) (now : Int) (fetch : FetchOutcome) : GetTokenResult :=
  if !(jsFalsyStr st.sharedToken) && isTokenValid st st.sharedToken now then
    { result := TokenResult.ok (st.sharedToken.getD ""), state := st, fetchCount := 0 }
  else
    match fetch with
    | FetchOutcome.throws msg =>
        { result := TokenResult.err msg, state := st, fetchCount := 1 }
    | FetchOutcome.resolved tok dexp =>
        if jsFalsyStr tok then
          { result := TokenResult.err "Authentication token not available",
            state := st, fetchCount := 1 }
        else
          let newTok := tok.getD ""
          let newExpiry := match dexp with
            | some e => some e
            | none => st.tokenExpiry
          { result := TokenResult.ok newTok,
            state := { sharedToken := some newTok, tokenExpiry := newExpiry,
                       listenerTokens := st.listenerTokens.map (fun _ => some newTok) },
            fetchCount := 1 }

/-- `clearToken` from the hook: resets `sharedToken` and `tokenExpiry` and
notifies every listener, each of which re-reads `sharedToken`. -/
def clearToken (st : AuthCacheState) : AuthCacheState :=
  { sharedToken := none, tokenExpiry := none,
    listenerTokens := st.listenerTokens.map (fun _ => none) }

/-! ## Role-gated route guard (ProtectedRoute) and related role checks -/

/-- A signed-in Clerk user as seen by the guard: only the
`publicMetadata.role` claim matters, and it may be absent. -/
structure ClerkUser where
  role : Option String
  deriving Repr, DecidableEq

/-- What the guard renders: the loading spinner, nothing (null), or the
protected children. -/
inductive GuardRender where
  | loading
  | nothing
  | children
  deriving Repr, DecidableEq

/-- Observable outcome of one evaluation of a route guard: the `navigate`
calls issued, in order, and what is rendered. -/
structure GuardResult where
  redirects : List String
  render : GuardRender
  deriving Repr, DecidableEq

/-- The JS comparison `user?.publicMetadata?.role !== requiredRole`: an
absent role claim never equals a string literal. -/
def roleMismatch (u : ClerkUser) (requiredRole : String) : Bool :=
  match u.role with
  | none => true
  | some r => r != requiredRole

/-- `ProtectedRoute` from `src/components/ProtectedRoute.tsx`, evaluated once
identity state is known. While loading it renders a spinner and decides
nothing. Once loaded: no user redirects to "/login" and renders null; a
truthy `requiredRole` that the user role does not equal redirects to
`redirectTo` and renders null; otherwise the children render. -/
def ProtectedRoute (isLoaded : Bool) (user : Option ClerkUser)
    (requiredRole : String) (redirectTo : String) : GuardResult :=
  if !isLoaded then { redirects := [], render := GuardRender.loading }
  else
    match user with
    | none => { redirects := ["/login"], render := GuardRender.nothing }
    | some u =>
        if requiredRole != "" && roleMismatch u requiredRole then
          { redirects := [redirectTo], render := GuardRender.nothing }
        else
          { redirects := [], render := GuardRender.children }

/-- `ProtectedRoute` at its declared defaults: `requiredRole = "admin"`,
`redirectTo = "/dashboard"`. -/
def protectedRouteDefaults (isLoaded : Bool) (user : Option ClerkUser) : GuardResult :=
  ProtectedRoute isLoaded user "admin" "/dashboard"

/-- The admin route of the route table in `App` (`path="/admin"`), which
mounts `ProtectedRoute` with `requiredRole="ADMIN"` and
`redirectTo="/dashboard"`. -/
def appAdminRoute (isLoaded : Bool) (user : Option ClerkUser) : GuardResult :=
  ProtectedRoute isLoaded user "ADMIN" "/dashboard"

/-- `PostLoginRedirect`: once loaded, no user goes to "/login"; a user whose
role claim is exactly the string "admin" goes to "/admin"; everyone else
goes to "/dashboard". -/
def PostLoginRedirect (isLoaded : Bool) (user : Option ClerkUser) : List String :=
  if !isLoaded then []
  else
    match user with
    | none => ["/login"]
    | some u => if u.role = some "admin" then ["/admin"] else ["/dashboard"]

/-- The permission gate inside `CreateMentorPage.onSubmit`: the submission
proceeds only when `user.publicMetadata.role` is exactly the string
"ADMIN" (`if (userRole !== 'ADMIN') throw ...`). -/
def mentorCreationRoleCheckPasses (role : Option String) : Bool :=
  role == some "ADMIN"

/-! ## Status normalization (normalizeStatus, StatusPill) -/

/-- Modelled from the spec: the `SessionStatus` enumeration declared in
`src/lib/types.ts`, which is absent from the source snapshot. The spec
defines it as the four-value enumeration PENDING, ACCEPTED, COMPLETED,
CANCELLED, matching the status union used by the admin bookings table. -/
inductive SessionStatus where
  | PENDING
  | ACCEPTED
  | COMPLETED
  | CANCELLED
  deriving Repr, DecidableEq

/-- Modelled from the spec: the runtime string value of each `SessionStatus`
member (a TypeScript string enum whose members are the uppercase status
names, as used in the PUT query string and in `newStatus.toLowerCase()`). -/
def sessionStatusValue : SessionStatus → String
  | SessionStatus.PENDING => "PENDING"
  | SessionStatus.ACCEPTED => "ACCEPTED"
  | SessionStatus.COMPLETED => "COMPLETED"
  | SessionStatus.CANCELLED => "CANCELLED"

/-- `status.toUpperCase()`, modelled character by character. -/
def toUpperAscii (s : String) : String :=
  String.mk (s.data.map Char.toUpper)

/-- `str.trim()`, modelled as dropping whitespace from both ends. -/
def trimAscii (s : String) : String :=
  String.mk (((s.data.dropWhile Char.isWhitespace).reverse.dropWhile
      Char.isWhitespace).reverse)

/-- `normalizeStatus` from `ManageBookingsPage`: a falsy status (null,
undefined, or the empty string) becomes null; a string whose uppercasing is
PENDING, ACCEPTED or COMPLETED becomes the corresponding enum value; any
other value is returned unchanged. Since `SessionStatus` is a string enum,
every input is represented here as an optional string. -/
def normalizeStatus (status : Option String) : Option String :=
  match status with
  | none => none
  | some s =>
      if s = "" then none
      else
        let upperStatus := toUpperAscii s
        if upperStatus = "PENDING" then some (sessionStatusValue SessionStatus.PENDING)
        else if upperStatus = "ACCEPTED" then some (sessionStatusValue SessionStatus.ACCEPTED)
        else if upperStatus = "COMPLETED" then some (sessionStatusValue SessionStatus.COMPLETED)
        else some s

/-- `status.charAt(0).toUpperCase() + status.slice(1).toLowerCase()` -/
def capitalizeFirstLowerRest (s : String) : String :=
  match s.data with
  | [] => ""
  | c :: cs => String.mk (c.toUpper :: cs.map Char.toLower)

/-- The text label rendered by `StatusPill`: falsy statuses render
"Unknown"; strings recognized (case-insensitively) as PENDING, ACCEPTED or
COMPLETED render the capitalized enum value; any other string renders as a
capitalized display label. -/
def StatusPillLabel (status : Option String) : String :=
  match status with
  | none => "Unknown"
  | some s =>
      if s = "" then "Unknown"
      else
        let upperStatus := toUpperAscii s
        if upperStatus = "PENDING" then
          capitalizeFirstLowerRest (sessionStatusValue SessionStatus.PENDING)
        else if upperStatus = "ACCEPTED" then
          capitalizeFirstLowerRest (sessionStatusValue SessionStatus.ACCEPTED)
        else if upperStatus = "COMPLETED" then
          capitalizeFirstLowerRest (sessionStatusValue SessionStatus.COMPLETED)
        else capitalizeFirstLowerRest s

/-! ## Class-creation form (classroomFormSchema and CreateClassPage.onSubmit) -/

/-- A selected file as the zod refinements see it: its byte size and its
MIME type string. -/
structure FileInput where
  size : Nat
  mimeType : String
  deriving Repr, DecidableEq

/-- `const MAX_FILE_SIZE = 5 * 1024 * 1024` -/
def MAX_FILE_SIZE : Nat := 5 * 1024 * 1024

/-- `const ACCEPTED_IMAGE_TYPES = [...]` -/
def ACCEPTED_IMAGE_TYPES : List String :=
  ["image/jpeg", "image/jpg", "image/png", "image/webp"]

/-- The field errors produced by `classroomFormSchema` on a candidate
submission: the class name must be at least 3 characters, and the selected
`FileList` (modelled as a list) must hold exactly one file of accepted type
and size at most `MAX_FILE_SIZE`. An absent first file fails the size and
type refinements exactly as `files?.[0]?.size <= MAX_FILE_SIZE` does. -/
def classroomFormErrors (name : String) (files : List FileInput) : List String :=
  (if name.length < 3 then ["Class name must be at least 3 characters."] else [])
  ++ (if files.length != 1 then ["Image is required."] else [])
  ++ (if !(match files.head? with
           | some f => decide (f.size ≤ MAX_FILE_SIZE)
           | none => false) then ["Max file size is 5MB."] else [])
  ++ (if !(match files.head? with
           | some f => ACCEPTED_IMAGE_TYPES.contains f.mimeType
           | none => false) then [".jpg, .jpeg, .png and .webp files are accepted."] else [])

/-- A network request issued by the class-creation submission pipeline. -/
inductive NetworkCall where
  | uploadFile
  | postClassroom (title : String) (imageUrl : String)
  deriving Repr, DecidableEq

/-- Outcome of the `POST /files/upload` request: a non-ok response makes
`uploadFile` throw; an ok response yields a parsed body whose url field may
be absent. -/
inductive UploadOutcome where
  | failed
  | succeeded (url : Option String)
  deriving Repr, DecidableEq

/-- The network calls issued by one class-creation submission through
`handleSubmit(onSubmit)`: the resolver runs `classroomFormSchema` first and
blocks `onSubmit` entirely on any field error; otherwise `onSubmit` uploads
the file and, only when an image URL comes back, posts the classroom. -/
def createClassSubmit (name : String) (files : List FileInput)
    (upload : UploadOutcome) : List NetworkCall :=
  if !(classroomFormErrors name files).isEmpty then []
  else
    NetworkCall.uploadFile ::
      (match upload with
       | UploadOutcome.failed => []
       | UploadOutcome.succeeded none => []
       | UploadOutcome.succeeded (some url) => [NetworkCall.postClassroom name url])

/-! ## Mentor creation (CreateMentorPage.onSubmit per-class loop) -/

/-- The validated personal fields of the mentor form. -/
structure MentorFields where
  clerkMentorId : String
  firstName : String
  lastName : String
  address : String
  email : String
  title : String
  sessionFee : Int
  profession : String
  subject : String
  phoneNumber : String
  qualification : String
  deriving Repr, DecidableEq

/-- The JSON body of one `POST /academic/mentor` request, as built by
`createMentor`. -/
structure MentorRequestBody where
  clerk_mentor_id : String
  first_name : String
  last_name : String
  address : String
  email : String
  title : String
  session_fee : Int
  profession : String
  subject : String
  phone_number : String
  qualification : String
  mentor_image : String
  class_room_id : Nat
  deriving Repr, DecidableEq

/-- The request body `createMentor` posts for one class. -/
def mentorRequestBody (f : MentorFields) (imageUrl : String) (classId : Nat) :
    MentorRequestBody :=
  { clerk_mentor_id := f.clerkMentorId
    first_name := f.firstName
    last_name := f.lastName
    address := f.address
    email := f.email
    title := f.title
    session_fee := f.sessionFee
    profession := f.profession
    subject := f.subject
    phone_number := f.phoneNumber
    qualification := f.qualification
    mentor_image := imageUrl
    class_room_id := classId }

/-- A request body with its class assignment erased, used to compare the
personal fields of two requests. -/
def bodyWithoutClass (b : MentorRequestBody) : MentorRequestBody :=
  { b with class_room_id := 0 }

/-- The `for (const classId of formData.selectedClasses)` loop of
`CreateMentorPage.onSubmit`, started at request index `k`. The backend
oracle `accepts` says whether the request at a given index gets an ok
response; `createMentor` throws on the first non-ok response, which aborts
the loop (the exception lands in the submission catch). Returns the bodies
of the requests actually issued, in order, and whether the loop finished. -/
def runMentorLoopFrom (f : MentorFields) (imageUrl : String) (accepts : Nat → Bool) :
    List Nat → Nat → List MentorRequestBody × Bool
  | [], _ => ([], true)
  | classId :: rest, k =>
      let req := mentorRequestBody f imageUrl classId
      if accepts k then
        let r := runMentorLoopFrom f imageUrl accepts rest (k + 1)
        (req :: r.1, r.2)
      else
        ([req], false)

/-- The whole per-class request loop, starting at the first request. -/
def runMentorLoop (f : MentorFields) (imageUrl : String) (classIds : List Nat)
    (accepts : Nat → Bool) : List MentorRequestBody × Bool :=
  runMentorLoopFrom f imageUrl accepts classIds 0

/-! ## Submission boundary of the CreateClassPage copy with the empty catch -/

/-- A toast shown to the user by a submission handler. -/
inductive Toast where
  | success (title : String)
  | failure (message : String)
  deriving Repr, DecidableEq

/-- Outcome of the `POST /academic/classroom` fetch in the third
`CreateClassPage` copy: the fetch promise may reject, or a response arrives
with some HTTP status whose body may or may not parse as JSON, carrying a
`title` field when it does. -/
inductive ClassroomFetchResult where
  | rejects
  | response (status : Nat) (jsonParses : Bool) (title : String)
  deriving Repr, DecidableEq

/-- Observable behaviour of one run of that `handleSubmit`: the toasts it
shows, whether an exception escaped it, and whether it retried anything. -/
structure SubmitRun where
  toasts : List Toast
  escaped : Bool
  retried : Bool
  deriving Repr, DecidableEq

/-- The `handleSubmit` of the `CreateClassPage` copy built on
`getSharedToken` whose catch block only logs. An empty class name throws;
a token failure propagates out of `getSharedToken`; `createClassroom` never
checks `response.ok`, so any response with a parseable JSON body produces
the success toast, whatever its status, while a rejected fetch or an
unparseable body throws. Every throw is swallowed by the empty catch: no
toast, no rethrow, no retry. -/
def handleSubmitThird (className : String) (token : TokenResult)
    (resp : ClassroomFetchResult) : SubmitRun :=
  if trimAscii className = "" then { toasts := [], escaped := false, retried := false }
  else
    match token with
    | TokenResult.err _ => { toasts := [], escaped := false, retried := false }
    | TokenResult.ok _ =>
        match resp with
        | ClassroomFetchResult.rejects =>
            { toasts := [], escaped := false, retried := false }
        | ClassroomFetchResult.response _ jsonParses title =>
            if jsonParses then
              { toasts := [Toast.success title], escaped := false, retried := false }
            else
              { toasts := [], escaped := false, retried := false }

/-! ## Booking status update (ManageBookingsPage.updateBookingStatus) -/

/-- One row of the admin bookings list, with the fields the page keeps
after processing the fetched sessions. -/
structure Booking where
  session_id : Nat
  class_name : String
  student_name : String
  mentor_name : String
  session_date : String
  session_duration : Nat
  status : Option String
  deriving Repr, DecidableEq

/-- `updateBookingStatus`: with no token the handler returns early; on an ok
PUT response the bookings state maps the matching `session_id` to a copy
with the new status; a non-ok response throws, is caught, and leaves the
bookings state untouched. -/
def updateBookingStatus (bookings : List Booking) (bookingId : Nat)
    (newStatus : String) (tokenAvailable : Bool) (putOk : Bool) : List Booking :=
  if !tokenAvailable then bookings
  else if putOk then
    bookings.map (fun booking =>
      if booking.session_id = bookingId then { booking with status := some newStatus }
      else booking)
  else bookings

/-! ## Theorems -/

/-- `isTokenValid` holds exactly when the token is truthy and the recorded
expiry is a nonzero value strictly beyond `now + 300`. -/
theorem isTokenValid_eq_true_iff (st : AuthCacheState) (tok : Option String) (now : Int) :
    isTokenValid st tok now = true ↔
      (jsFalsyStr tok = false ∧ ∃ e, st.tokenExpiry = some e ∧ e ≠ 0 ∧ now + 300 < e) := by
  unfold isTokenValid
  constructor
  · intro h
    by_cases hf : jsFalsyStr tok || jsFalsyInt st.tokenExpiry
    · simp [hf] at h
    · rw [if_neg hf] at h
      simp only [Bool.or_eq_true, not_or, Bool.not_eq_true] at hf
      obtain ⟨hTok, hExp⟩ := hf
      refine ⟨hTok, ?_⟩
      cases hE : st.tokenExpiry with
      | none => rw [hE] at hExp; simp [jsFalsyInt] at hExp
      | some e =>
          rw [hE] at hExp h
          simp [jsFalsyInt] at hExp
          simp only [Option.getD_some, decide_eq_true_eq] at h
          exact ⟨e, rfl, hExp, h⟩
  · rintro ⟨hTok, e, hE, hNe, hLt⟩
    have hf : (jsFalsyStr tok || jsFalsyInt st.tokenExpiry) = false := by
      simp [hTok, hE, jsFalsyInt, hNe]
    rw [if_neg (by simp [hf])]
    simp [hE, hLt]

/-- C1 (amended): the 300-second safety margin governs reuse of the cache,
and only the cache. With a cached token and a recorded expiry more than 300
seconds beyond the current (nonnegative) time, `getSharedToken` returns the
cached token with no fetch and no state change; with no cached token, no
recorded expiry, or an expiry at most 300 seconds away, it performs a fetch
instead of returning the cached value; and whenever no fetch happens, the
recorded expiry necessarily exceeds `now + 300`. (A freshly fetched token,
however, is returned to the caller whatever its own expiry is.) -/
theorem getSharedToken_margin_spec (st : AuthCacheState) (t : String) (e now : Int)
    (fetch : FetchOutcome) :
    (st.sharedToken = some t → t ≠ "" → st.tokenExpiry = some e → 0 ≤ now →
       now + 300 < e →
       getSharedToken st now fetch =
         { result := TokenResult.ok t, state := st, fetchCount := 0 })
    ∧ ((st.sharedToken = none ∨ st.tokenExpiry = none ∨
        (st.tokenExpiry = some e ∧ e ≤ now + 300)) →
       (getSharedToken st now fetch).fetchCount = 1)
    ∧ ((getSharedToken st now fetch).fetchCount = 0 →
       ∃ e2, st.tokenExpiry = some e2 ∧ now + 300 < e2)
    := by
  refine ⟨?_, ?_, ?_⟩
  · intro h1 h2 h3 h4 h5
    have hNe : e ≠ 0 := by omega
    have hValid : isTokenValid st st.sharedToken now = true := by
      rw [isTokenValid_eq_true_iff]
      exact ⟨by simp [h1, jsFalsyStr, h2], e, h3, hNe, h5⟩
    have hValid2 : isTokenValid st (some t) now = true := h1 ▸ hValid
    unfold getSharedToken
    rw [if_pos (by simp [h1, jsFalsyStr, h2, hValid2])]
    simp [h1]
  · intro h
    have hInvalid : (!(jsFalsyStr st.sharedToken) && isTokenValid st st.sharedToken now) = false := by
      rcases h with h | h | ⟨h, hLe⟩
      · simp [h, jsFalsyStr]
      · cases hV : isTokenValid st st.sharedToken now
        · simp
        · rw [isTokenValid_eq_true_iff] at hV
          obtain ⟨_, e2, hE2, _, _⟩ := hV
          rw [h] at hE2
          exact absurd hE2 (by simp)
      · cases hV : isTokenValid st st.sharedToken now
        · simp
        · rw [isTokenValid_eq_true_iff] at hV
          obtain ⟨_, e2, hE2, _, hLt⟩ := hV
          rw [h] at hE2
          injection hE2 with hE2
          omega
    unfold getSharedToken
    rw [if_neg (by simp [hInvalid])]
    cases fetch with
    | throws msg => rfl
    | resolved tok dexp => by_cases hTok : jsFalsyStr tok <;> simp [hTok]
  · intro h
    by_cases hHit : (!(jsFalsyStr st.sharedToken) && isTokenValid st st.sharedToken now) = true
    · have hValid : isTokenValid st st.sharedToken now = true := by
        simp only [Bool.and_eq_true] at hHit
        exact hHit.2
      rw [isTokenValid_eq_true_iff] at hValid
      obtain ⟨_, e2, hE2, _, hLt⟩ := hValid
      exact ⟨e2, hE2, hLt⟩
    · exfalso
      unfold getSharedToken at h
      rw [if_neg hHit] at h
      cases fetch with
      | throws msg => simp at h
      | resolved tok dexp =>
          by_cases hTok : jsFalsyStr tok <;> simp [hTok] at h

/-- C1 counterexample: with an empty cache at time 1000, a fresh fetch that
yields a token expiring at 1060 makes `getSharedToken` return that token to
the caller even though its expiry is within 300 seconds of now, so the
claim that no token whose expiry is within the margin is ever returned is
false on the code. -/
theorem getSharedToken_fresh_within_margin_counterexample :
    (getSharedToken ⟨none, none, []⟩ 1000
        (FetchOutcome.resolved (some "tok") (some 1060))).result = TokenResult.ok "tok"
    ∧ (getSharedToken ⟨none, none, []⟩ 1000
        (FetchOutcome.resolved (some "tok") (some 1060))).state.tokenExpiry = some 1060
    ∧ (1060 : Int) ≤ 1000 + 300 := by
  refine ⟨rfl, rfl, by decide⟩

/-- C1 witness: a cached token "cached" with expiry 2000 at time 1000 is
returned from the cache with no fetch, even when the identity provider
would throw. -/
theorem getSharedToken_margin_spec_witness :
    getSharedToken ⟨some "cached", some 2000, []⟩ 1000 (FetchOutcome.throws "x") =
      { result := TokenResult.ok "cached",
        state := ⟨some "cached", some 2000, []⟩, fetchCount := 0 } :=
  (getSharedToken_margin_spec ⟨some "cached", some 2000, []⟩ "cached" 2000 1000
      (FetchOutcome.throws "x")).1 rfl (by decide) rfl (by decide) (by decide)

/-- C2: on the fetch path, a rejected `getToken` is rethrown as-is, a null
token raises "Authentication token not available", the cache state
(token, expiry, listeners) is untouched by the failed call, and no call
ever issues more than one fetch (no automatic retry). -/
theorem getSharedToken_failure_spec (st : AuthCacheState) (now : Int)
    (hMiss : (!(jsFalsyStr st.sharedToken) && isTokenValid st st.sharedToken now) = false) :
    (∀ msg, getSharedToken st now (FetchOutcome.throws msg) =
       { result := TokenResult.err msg, state := st, fetchCount := 1 })
    ∧ (∀ dexp, getSharedToken st now (FetchOutcome.resolved none dexp) =
       { result := TokenResult.err "Authentication token not available",
         state := st, fetchCount := 1 })
    ∧ (∀ fetch, (getSharedToken st now fetch).fetchCount ≤ 1) := by
  refine ⟨?_, ?_, ?_⟩
  · intro msg
    unfold getSharedToken
    rw [if_neg (by simp [hMiss])]
  · intro dexp
    unfold getSharedToken
    rw [if_neg (by simp [hMiss])]
    rfl
  · intro fetch
    unfold getSharedToken
    by_cases hHit : (!(jsFalsyStr st.sharedToken) && isTokenValid st st.sharedToken now) = true
    · rw [if_pos hHit]; exact Nat.zero_le 1
    · rw [if_neg hHit]
      cases fetch with
      | throws msg => exact Nat.le_refl 1
      | resolved tok dexp => by_cases hTok : jsFalsyStr tok <;> simp [hTok]

/-- C2 witness: with an empty cache, a rejected fetch is rethrown and the
state is unchanged after exactly one fetch. -/
theorem getSharedToken_failure_spec_witness :
    getSharedToken ⟨none, none, []⟩ 0 (FetchOutcome.throws "boom") =
      { result := TokenResult.err "boom", state := ⟨none, none, []⟩, fetchCount := 1 } :=
  (getSharedToken_failure_spec ⟨none, none, []⟩ 0 (by decide)).1 "boom"

/-- C3: `clearToken` resets the cached token and expiry to empty and
notifies every registered listener, so every subscribed consumer observes a
null token afterwards (and no listener registration is lost). -/
theorem clearToken_spec (st : AuthCacheState) :
    (clearToken st).sharedToken = none
    ∧ (clearToken st).tokenExpiry = none
    ∧ (clearToken st).listenerTokens.length = st.listenerTokens.length
    ∧ (clearToken st).listenerTokens.all Option.isNone = true := by
  refine ⟨rfl, rfl, ?_, ?_⟩
  · simp [clearToken]
  · simp [clearToken, List.all_eq_true]

/-- C4 counterexample: with `requiredRole = ""` the truthiness guard on
`requiredRole` skips the role check, so a signed-in user whose role
("STUDENT") differs from the required role is shown the protected children
with no redirect, contradicting the claim as stated. -/
theorem protectedRoute_empty_role_counterexample :
    "STUDENT" ≠ "" ∧
      ProtectedRoute true (some ⟨some "STUDENT"⟩) "" "/dashboard" =
        { redirects := [], render := GuardRender.children } := by
  exact ⟨by decide, rfl⟩

/-- C4 (amended): once identity is resolved, no signed-in user means a
single redirect to "/login" and nothing rendered, regardless of
`requiredRole`; a signed-in user whose role differs from a non-empty
`requiredRole` gets nothing rendered and exactly one redirect to the
configured fallback; and a matching role renders the children with no
redirect. -/
theorem protectedRoute_spec (requiredRole redirectTo : String) :
    (ProtectedRoute true none requiredRole redirectTo =
       { redirects := ["/login"], render := GuardRender.nothing })
    ∧ (∀ u, requiredRole ≠ "" → roleMismatch u requiredRole = true →
        ProtectedRoute true (some u) requiredRole redirectTo =
          { redirects := [redirectTo], render := GuardRender.nothing })
    ∧ (∀ u, roleMismatch u requiredRole = false →
        ProtectedRoute true (some u) requiredRole redirectTo =
          { redirects := [], render := GuardRender.children }) := by
  refine ⟨rfl, ?_, ?_⟩
  · intro u h1 h2
    simp [ProtectedRoute, h2, bne_iff_ne, h1]
  · intro u h
    simp [ProtectedRoute, h]

/-- C4 witness: an "ADMIN"-guarded route with a signed-in "STUDENT" renders
nothing and issues exactly one redirect to the fallback. -/
theorem protectedRoute_spec_witness :
    ProtectedRoute true (some ⟨some "STUDENT"⟩) "ADMIN" "/dashboard" =
      { redirects := ["/dashboard"], render := GuardRender.nothing } :=
  (protectedRoute_spec "ADMIN" "/dashboard").2.1 ⟨some "STUDENT"⟩ (by decide) (by decide)

/-- C5: role comparison is case-sensitive string equality against distinct
literals at the different call sites. For every role string, the guard
default and `PostLoginRedirect` grant exactly the literal "admin", while
the admin route table entry and the mentor-creation permission check grant
exactly the literal "ADMIN"; the two literals differ, so "admin" authorizes
at the former sites and not the latter, and vice versa. -/
theorem roleLiteral_case_sensitivity (r : String) :
    ((protectedRouteDefaults true (some ⟨some r⟩)).render =
       (if r = "admin" then GuardRender.children else GuardRender.nothing))
    ∧ ((protectedRouteDefaults true (some ⟨some r⟩)).redirects =
       (if r = "admin" then [] else ["/dashboard"]))
    ∧ (PostLoginRedirect true (some ⟨some r⟩) =
       (if r = "admin" then ["/admin"] else ["/dashboard"]))
    ∧ ((appAdminRoute true (some ⟨some r⟩)).render =
       (if r = "ADMIN" then GuardRender.children else GuardRender.nothing))
    ∧ (mentorCreationRoleCheckPasses (some r) = (r == "ADMIN"))
    ∧ "admin" ≠ "ADMIN" := by
  refine ⟨?_, ?_, ?_, ?_, ?_, by decide⟩
  · by_cases h : r = "admin" <;>
      simp [protectedRouteDefaults, ProtectedRoute, roleMismatch, h]
  · by_cases h : r = "admin" <;>
      simp [protectedRouteDefaults, ProtectedRoute, roleMismatch, h]
  · by_cases h : r = "admin" <;> simp [PostLoginRedirect, h]
  · by_cases h : r = "ADMIN" <;>
      simp [appAdminRoute, ProtectedRoute, roleMismatch, h]
  · simp [mentorCreationRoleCheckPasses]

/-- C6 counterexample: "cancelled" uppercases to the canonical status name
CANCELLED, yet `normalizeStatus` passes it through uncoerced instead of
returning the enum value, so the claim that every string naming a canonical
status is coerced is false on the code. -/
theorem normalizeStatus_cancelled_counterexample :
    toUpperAscii "cancelled" = sessionStatusValue SessionStatus.CANCELLED
    ∧ normalizeStatus (some "cancelled") = some "cancelled"
    ∧ some "cancelled" ≠ some (sessionStatusValue SessionStatus.CANCELLED) := by
  refine ⟨by decide, by decide, by decide⟩

/-- C6 (amended): normalization coerces exactly the three statuses PENDING,
ACCEPTED, COMPLETED case-insensitively — so "pending", "PENDING" and the
enum value agree — while every other non-falsy string (including ones
naming CANCELLED) passes through uncoerced and renders as a capitalized
label, and falsy inputs normalize to null and render as "Unknown". -/
theorem normalizeStatus_spec :
    (normalizeStatus (some "pending") = some (sessionStatusValue SessionStatus.PENDING)
     ∧ normalizeStatus (some "PENDING") = some (sessionStatusValue SessionStatus.PENDING)
     ∧ normalizeStatus (some (sessionStatusValue SessionStatus.PENDING)) =
         some (sessionStatusValue SessionStatus.PENDING))
    ∧ (normalizeStatus none = none ∧ StatusPillLabel none = "Unknown"
       ∧ normalizeStatus (some "") = none ∧ StatusPillLabel (some "") = "Unknown")
    ∧ (∀ s : String, s ≠ "" → toUpperAscii s ≠ "PENDING" → toUpperAscii s ≠ "ACCEPTED" →
        toUpperAscii s ≠ "COMPLETED" →
        normalizeStatus (some s) = some s
        ∧ StatusPillLabel (some s) = capitalizeFirstLowerRest s)
    ∧ (StatusPillLabel (some "ACCEPTED") = "Accepted"
       ∧ StatusPillLabel (some "accepted") = "Accepted") := by
  refine ⟨⟨by decide, by decide, by decide⟩, ⟨rfl, rfl, by decide, by decide⟩, ?_,
    by decide, by decide⟩
  intro s h0 h1 h2 h3
  constructor
  · simp [normalizeStatus, h0, h1, h2, h3]
  · simp [StatusPillLabel, h0, h1, h2, h3]

/-- C6 witness: an unrecognized status string passes through uncoerced and
renders as its capitalized form. -/
theorem normalizeStatus_spec_witness :
    normalizeStatus (some "mystery") = some "mystery"
    ∧ StatusPillLabel (some "mystery") = capitalizeFirstLowerRest "mystery" :=
  normalizeStatus_spec.2.2.1 "mystery" (by decide) (by decide) (by decide) (by decide)

/-- C7: validation failure blocks all network activity. A too-short class
name yields the inline name error and zero network calls; a valid name with
an over-limit file yields the file-size error and zero network calls (in
particular no upload request); in general any field error means no request
is issued. -/
theorem createClass_validation_spec (name : String) (files : List FileInput)
    (f : FileInput) (upload : UploadOutcome) :
    (name.length < 3 →
       "Class name must be at least 3 characters." ∈ classroomFormErrors name files
       ∧ createClassSubmit name files upload = [])
    ∧ (MAX_FILE_SIZE < f.size →
       "Max file size is 5MB." ∈ classroomFormErrors name [f]
       ∧ createClassSubmit name [f] upload = [])
    ∧ (classroomFormErrors name files ≠ [] → createClassSubmit name files upload = []) := by
  have hblock : ∀ (nm : String) (fs : List FileInput),
      classroomFormErrors nm fs ≠ [] → createClassSubmit nm fs upload = [] := by
    intro nm fs h
    have hne : (classroomFormErrors nm fs).isEmpty = false := by
      cases hE : classroomFormErrors nm fs with
      | nil => exact absurd hE h
      | cons a l => rfl
    simp [createClassSubmit, hne]
  refine ⟨?_, ?_, hblock name files⟩
  · intro h
    have hmem : "Class name must be at least 3 characters." ∈ classroomFormErrors name files := by
      simp [classroomFormErrors, h]
    exact ⟨hmem, hblock name files (by intro hE; rw [hE] at hmem; simp at hmem)⟩
  · intro h
    have hsz : ¬ f.size ≤ MAX_FILE_SIZE := by omega
    have hmem : "Max file size is 5MB." ∈ classroomFormErrors name [f] := by
      simp [classroomFormErrors, hsz]
    exact ⟨hmem, hblock name [f] (by intro hE; rw [hE] at hmem; simp at hmem)⟩

/-- C7 witness: an empty name is blocked with the inline name error and no
network call; "Biology" with a 6MB png is blocked by the file-size check
with no network call. -/
theorem createClass_validation_spec_witness :
    ("Class name must be at least 3 characters." ∈ classroomFormErrors "" []
      ∧ createClassSubmit "" [] (UploadOutcome.succeeded (some "u")) = [])
    ∧ ("Max file size is 5MB." ∈
        classroomFormErrors "Biology" [⟨6 * 1024 * 1024, "image/png"⟩]
      ∧ createClassSubmit "Biology" [⟨6 * 1024 * 1024, "image/png"⟩]
          (UploadOutcome.succeeded (some "u")) = []) :=
  ⟨(createClass_validation_spec "" [] ⟨0, ""⟩ (UploadOutcome.succeeded (some "u"))).1
      (by decide),
   (createClass_validation_spec "Biology" [] ⟨6 * 1024 * 1024, "image/png"⟩
      (UploadOutcome.succeeded (some "u"))).2.1 (by decide)⟩

/-- With an all-accepting backend the loop issues one request per selected
class, in order. -/
theorem runMentorLoopFrom_all_accept (f : MentorFields) (imageUrl : String)
    (ids : List Nat) (s : Nat) :
    runMentorLoopFrom f imageUrl (fun _ => true) ids s =
      (ids.map (mentorRequestBody f imageUrl), true) := by
  induction ids generalizing s with
  | nil => rfl
  | cons c rest ih => simp [runMentorLoopFrom, ih]

/-- If the backend accepts the first `k` requests and rejects request `k`,
the loop issues exactly the first `k + 1` requests and stops. -/
theorem runMentorLoopFrom_first_failure (f : MentorFields) (imageUrl : String)
    (accepts : Nat → Bool) (ids : List Nat) (s k : Nat)
    (hacc : ∀ i, i < k → accepts (s + i) = true) (hk : accepts (s + k) = false)
    (hlen : k < ids.length) :
    runMentorLoopFrom f imageUrl accepts ids s =
      ((ids.take (k + 1)).map (mentorRequestBody f imageUrl), false) := by
  induction ids generalizing s k with
  | nil => simp at hlen
  | cons c rest ih =>
      cases k with
      | zero =>
          have h0 : accepts s = false := by simpa using hk
          simp [runMentorLoopFrom, h0]
      | succ k2 =>
          have h0 : accepts s = true := by simpa using hacc 0 (Nat.succ_pos k2)
          have hacc2 : ∀ i, i < k2 → accepts (s + 1 + i) = true := by
            intro i hi
            have hs : s + 1 + i = s + (i + 1) := by omega
            rw [hs]
            exact hacc (i + 1) (by omega)
          have hk2 : accepts (s + 1 + k2) = false := by
            have hs : s + 1 + k2 = s + (k2 + 1) := by omega
            rw [hs]
            exact hk
          have ih2 := ih (s + 1) k2 hacc2 hk2 (by simpa using hlen)
          simp [runMentorLoopFrom, h0, ih2, List.take_succ_cons]

/-- The issued request bodies agree on everything but the class id. -/
theorem mentorRequests_personal_fields_const (f : MentorFields) (imageUrl : String)
    (ids : List Nat) :
    (ids.map (mentorRequestBody f imageUrl)).map bodyWithoutClass =
      ids.map (fun _ => bodyWithoutClass (mentorRequestBody f imageUrl 0)) := by
  induction ids with
  | nil => rfl
  | cons c rest ih => simpa [bodyWithoutClass, mentorRequestBody] using ih

/-- The issued request bodies carry exactly the selected class ids. -/
theorem mentorRequests_class_ids (f : MentorFields) (imageUrl : String)
    (ids : List Nat) :
    (ids.map (mentorRequestBody f imageUrl)).map MentorRequestBody.class_room_id = ids := by
  induction ids with
  | nil => rfl
  | cons c rest ih => simpa [mentorRequestBody] using ih

/-- C8: with `n` selected classes and an all-accepting backend, exactly `n`
mentor requests are issued, their personal fields all identical and their
`class_room_id` fields exactly the selected class ids, in order; and when
request `k` (0-based) is the first to fail, exactly the first `k + 1`
requests have been issued (so the earlier ones already succeeded), no
request after it is issued, and no compensating call exists. -/
theorem mentorCreation_batch_spec (f : MentorFields) (imageUrl : String)
    (classIds : List Nat) (accepts : Nat → Bool) (k : Nat) :
    (runMentorLoop f imageUrl classIds (fun _ => true) =
       (classIds.map (mentorRequestBody f imageUrl), true))
    ∧ ((runMentorLoop f imageUrl classIds (fun _ => true)).1.length = classIds.length)
    ∧ ((runMentorLoop f imageUrl classIds (fun _ => true)).1.map bodyWithoutClass =
       classIds.map (fun _ => bodyWithoutClass (mentorRequestBody f imageUrl 0)))
    ∧ ((runMentorLoop f imageUrl classIds (fun _ => true)).1.map
         MentorRequestBody.class_room_id = classIds)
    ∧ ((∀ i, i < k → accepts i = true) → accepts k = false → k < classIds.length →
       runMentorLoop f imageUrl classIds accepts =
         ((classIds.take (k + 1)).map (mentorRequestBody f imageUrl), false)) := by
  have hall := runMentorLoopFrom_all_accept f imageUrl classIds 0
  refine ⟨hall, ?_, ?_, ?_, ?_⟩
  · rw [runMentorLoop, hall]
    simp
  · rw [runMentorLoop, hall]
    exact mentorRequests_personal_fields_const f imageUrl classIds
  · rw [runMentorLoop, hall]
    exact mentorRequests_class_ids f imageUrl classIds
  · intro hacc hk hlen
    exact runMentorLoopFrom_first_failure f imageUrl accepts classIds 0 k
      (by simpa using hacc) (by simpa using hk) hlen

/-- Sample personal fields used by the C8 witness. -/
def sampleMentorFields : MentorFields :=
  { clerkMentorId := "clerk-1", firstName := "Jane", lastName := "Doe",
    address := "1 Main St", email := "jane@example.com", title := "Ms",
    sessionFee := 100, profession := "Teacher", subject := "Biology tutoring",
    phoneNumber := "0771234567", qualification := "BSc Biology" }

/-- C8 witness: three selected classes against a backend rejecting the
third request: the first two requests succeeded, the failing third was
issued, and nothing after it. -/
theorem mentorCreation_batch_spec_witness :
    runMentorLoop sampleMentorFields "img" [10, 20, 30] (fun i => decide (i < 2)) =
      (([10, 20, 30].take 3).map (mentorRequestBody sampleMentorFields "img"), false) :=
  (mentorCreation_batch_spec sampleMentorFields "img" [10, 20, 30]
      (fun i => decide (i < 2)) 2).2.2.2.2
    (fun i hi => decide_eq_true hi) (by decide) (by decide)

/-- C9 counterexample: in the `CreateClassPage` copy with the empty catch,
a failed token fetch produces no toast at all, and a 500 response with a
JSON body produces a success toast; so the claim that every submission
error is converted to a user-facing toast describing the failure is false
on the code. -/
theorem submitBoundary_counterexample :
    (handleSubmitThird "Biology" (TokenResult.err "token fetch failed")
        ClassroomFetchResult.rejects).toasts = []
    ∧ (handleSubmitThird "Biology" (TokenResult.ok "tok")
        (ClassroomFetchResult.response 500 true "Biology")).toasts =
      [Toast.success "Biology"] := by
  exact ⟨by decide, by decide⟩

/-- C9 (amended): every error arising during submission is caught at the
submission boundary (none escapes to crash the view) and nothing is
automatically retried, but the conversion to a user-facing toast does not
hold everywhere: the `CreateClassPage` copy whose catch only logs swallows
every submission error with no toast. -/
theorem submitBoundary_spec (name : String) (token : TokenResult)
    (resp : ClassroomFetchResult) :
    (handleSubmitThird name token resp).escaped = false
    ∧ (handleSubmitThird name token resp).retried = false
    ∧ (∀ msg, (handleSubmitThird name (TokenResult.err msg) resp).toasts = []) := by
  have hAll : ∀ (tk : TokenResult) (rs : ClassroomFetchResult),
      (handleSubmitThird name tk rs).escaped = false
      ∧ (handleSubmitThird name tk rs).retried = false := by
    intro tk rs
    unfold handleSubmitThird
    by_cases h : trimAscii name = ""
    · rw [if_pos h]
      exact ⟨rfl, rfl⟩
    · rw [if_neg h]
      cases tk with
      | err m => exact ⟨rfl, rfl⟩
      | ok t =>
          cases rs with
          | rejects => exact ⟨rfl, rfl⟩
          | response s j ti => cases j <;> exact ⟨rfl, rfl⟩
  refine ⟨(hAll token resp).1, (hAll token resp).2, ?_⟩
  intro msg
  unfold handleSubmitThird
  by_cases h : trimAscii name = ""
  · rw [if_pos h]
  · rw [if_neg h]

/-- C10: after a successful PUT, exactly the bookings whose `session_id`
equals the updated id get their status field replaced (all their other
fields kept), every other booking is unchanged; with no token or after a
failed PUT the bookings list is entirely unchanged. -/
theorem updateBookingStatus_frame_spec (bookings : List Booking) (bookingId : Nat)
    (newStatus : String) :
    (∀ tokenAvailable,
       updateBookingStatus bookings bookingId newStatus tokenAvailable false = bookings)
    ∧ (∀ putOk, updateBookingStatus bookings bookingId newStatus false putOk = bookings)
    ∧ (∀ (i : Nat) (b : Booking), bookings[i]? = some b →
        (b.session_id = bookingId →
          (updateBookingStatus bookings bookingId newStatus true true)[i]? =
            some { b with status := some newStatus })
        ∧ (b.session_id ≠ bookingId →
          (updateBookingStatus bookings bookingId newStatus true true)[i]? = some b)) := by
  refine ⟨?_, ?_, ?_⟩
  · intro t
    cases t <;> simp [updateBookingStatus]
  · intro p
    simp [updateBookingStatus]
  · intro i b hb
    have hmap : (updateBookingStatus bookings bookingId newStatus true true)[i]? =
        Option.map (fun booking : Booking =>
          if booking.session_id = bookingId then { booking with status := some newStatus }
          else booking) bookings[i]? := by
      simp [updateBookingStatus]
    constructor
    · intro h
      rw [hmap, hb]
      simp [h]
    · intro h
      rw [hmap, hb]
      simp [h]

/-- Sample bookings used by the C10 witness. -/
def sampleBookingA : Booking :=
  { session_id := 1, class_name := "Biology", student_name := "Sarah",
    mentor_name := "Dr. Perera", session_date := "2025-01-28", session_duration := 1,
    status := some "PENDING" }

/-- Second sample booking used by the C10 witness. -/
def sampleBookingB : Booking :=
  { session_id := 2, class_name := "Chemistry", student_name := "Michael",
    mentor_name := "Prof. Silva", session_date := "2025-01-29", session_duration := 2,
    status := some "ACCEPTED" }

/-- C10 witness: updating booking 1 to ACCEPTED rewrites only its status
and leaves booking 2 untouched. -/
theorem updateBookingStatus_frame_spec_witness :
    (updateBookingStatus [sampleBookingA, sampleBookingB] 1 "ACCEPTED" true true)[0]? =
      some { sampleBookingA with status := some "ACCEPTED" }
    ∧ (updateBookingStatus [sampleBookingA, sampleBookingB] 1 "ACCEPTED" true true)[1]? =
      some sampleBookingB :=
  ⟨((updateBookingStatus_frame_spec [sampleBookingA, sampleBookingB] 1 "ACCEPTED").2.2
      0 sampleBookingA rfl).1 rfl,
   ((updateBookingStatus_frame_spec [sampleBookingA, sampleBookingB] 1 "ACCEPTED").2.2
      1 sampleBookingB rfl).2 (by decide)⟩

end SkillMentor
